import Mathlib

/-!
Shallow embedding of the scoring engine of `mental_health_app.py`
(student mental-health risk evaluator).

Part 1, record level: one input row with exactly the required columns is a
`StudentRecord`; each intermediate `Score_...` dataframe column of the source
becomes a function of the record, and `Risk_Score` is the sum over every
column whose name starts with `Score_` (12 binary-indicator columns created
in step 1 of the source plus 23 weighted columns created in step 2).

Part 2, row level (further below): a dataframe row is an association list of
column name to cell value, so that schema validation, extra columns and the
report cleanup can be stated faithfully.

Numeric cells are modelled as rationals; binary cells as strings.
-/

set_option maxRecDepth 4000

/-- One input row, with the 26 required survey fields plus the identifier.
Numeric fields are rationals, binary fields are raw strings. -/
structure StudentRecord where
  Student_number : String
  Hours_Sleep : ℚ
  Social_Support_Score : ℚ
  Academic_Pressure : ℚ
  Symptoms_Frequency : ℚ
  CGPA : ℚ
  Year_of_Study : ℚ
  Interested_in_Course : String
  Family_Pressure : String
  Career_Pressure : String
  Experienced_Trauma : String
  Someone_to_Talk_To : String
  Sleep_Quality_Rating : ℚ
  Screen_Time_Hours : ℚ
  Sought_Professional_Help : String
  Overwhelmed_by_Studies : String
  Anxious_in_Social_Situations : String
  Physical_Exercise_Frequency : ℚ
  Close_Friends_Count : ℚ
  Motivated_about_Prospects : String
  Daily_Energy_Levels : ℚ
  Knows_Healthy_Coping : String
  Skip_Meals_Irregularly : String
  Alcohol_Drinks_Weekly : ℚ
  Recreational_Drugs_Use : String
  Difficulty_Controlling_Anger : ℚ
  Academic_Satisfaction : ℚ

/-- Python str.lower modelled character-wise (structurally recursive, so
that proofs can evaluate it; Lean String.toLower is the same map but is
defined by well-founded recursion). -/
def strLower (s : String) : String := String.mk (s.data.map Char.toLower)

/-- String prefix test modelled on the character list (structurally
recursive counterpart of String.startsWith). -/
def strStartsWith (s p : String) : Bool := p.data.isPrefixOf s.data

/-- Source line 38: mapping_risk = \x7b'yes': 1, 'no': 0\x7d. -/
def mapping_risk (s : String) : Option ℚ :=
  if s = "yes" then some 1 else if s = "no" then some 0 else none

/-- Source line 39: mapping_reverse_risk = \x7b'yes': 0, 'no': 1\x7d. -/
def mapping_reverse_risk (s : String) : Option ℚ :=
  if s = "yes" then some 0 else if s = "no" then some 1 else none

/-- Source line 55: astype(str).str.lower().map(mapping_risk).fillna(0). -/
def scoreRisk (v : String) : ℚ :=
  (mapping_risk (strLower v)).getD 0

/-- Source line 58: astype(str).str.lower().map(mapping_reverse_risk).fillna(1). -/
def scoreReverseRisk (v : String) : ℚ :=
  (mapping_reverse_risk (strLower v)).getD 1

/-- Pandas clip with both bounds: min (max x lo) hi. -/
def clipLU (x lo hi : ℚ) : ℚ := min (max x lo) hi

/-- Pandas clip with only a lower bound. -/
def clipL (x lo : ℚ) : ℚ := max x lo

/-- Pandas clip with only an upper bound. -/
def clipU (x hi : ℚ) : ℚ := min x hi

/-! Step 1 of the source (lines 53-58): intermediate 0/1 indicator columns
for the eleven risk-direction binary fields and the one reverse field. -/

def Score_Interested_in_Course (r : StudentRecord) : ℚ := scoreRisk r.Interested_in_Course

def Score_Family_Pressure (r : StudentRecord) : ℚ := scoreRisk r.Family_Pressure

def Score_Career_Pressure (r : StudentRecord) : ℚ := scoreRisk r.Career_Pressure

def Score_Experienced_Trauma (r : StudentRecord) : ℚ := scoreRisk r.Experienced_Trauma

def Score_Overwhelmed_by_Studies (r : StudentRecord) : ℚ := scoreRisk r.Overwhelmed_by_Studies

def Score_Anxious_in_Social_Situations (r : StudentRecord) : ℚ :=
  scoreRisk r.Anxious_in_Social_Situations

def Score_Motivated_about_Prospects (r : StudentRecord) : ℚ :=
  scoreRisk r.Motivated_about_Prospects

def Score_Knows_Healthy_Coping (r : StudentRecord) : ℚ := scoreRisk r.Knows_Healthy_Coping

def Score_Skip_Meals_Irregularly (r : StudentRecord) : ℚ := scoreRisk r.Skip_Meals_Irregularly

def Score_Recreational_Drugs_Use (r : StudentRecord) : ℚ := scoreRisk r.Recreational_Drugs_Use

def Score_Sought_Professional_Help (r : StudentRecord) : ℚ :=
  scoreRisk r.Sought_Professional_Help

def Score_Someone_to_Talk_To (r : StudentRecord) : ℚ := scoreReverseRisk r.Someone_to_Talk_To

/-! Step 2 of the source (lines 63-92): the weighted factor columns. -/

def Score_Sleep_Hours (r : StudentRecord) : ℚ := clipLU (8 - r.Hours_Sleep) 0 4 * 1.5

def Score_Sleep_Quality (r : StudentRecord) : ℚ := clipLU (5 - r.Sleep_Quality_Rating) 0 4 * 2.0

def Score_Symptoms (r : StudentRecord) : ℚ := r.Symptoms_Frequency * 3.0

def Score_Support_Score (r : StudentRecord) : ℚ := clipLU (5 - r.Social_Support_Score) 0 4 * 1.5

def Score_Friends (r : StudentRecord) : ℚ := clipLU (5 - r.Close_Friends_Count) 0 5 * 1.0

def Score_Energy (r : StudentRecord) : ℚ := clipLU (5 - r.Daily_Energy_Levels) 0 4 * 1.5

def Score_Pressure_Academic_Scale (r : StudentRecord) : ℚ := r.Academic_Pressure * 1.5

def Score_Pressure_Family_Binary (r : StudentRecord) : ℚ := Score_Family_Pressure r * 2.0

def Score_Pressure_Career_Binary (r : StudentRecord) : ℚ := Score_Career_Pressure r * 1.5

def Score_CGPA (r : StudentRecord) : ℚ := clipLU (4.0 - r.CGPA) 0 4.0 * 1.5

def Score_Acad_Dissatisfaction (r : StudentRecord) : ℚ :=
  clipL (5 - r.Academic_Satisfaction) 0 * 1.0

def Score_Overwhelmed (r : StudentRecord) : ℚ := Score_Overwhelmed_by_Studies r * 2.0

def Score_Trauma (r : StudentRecord) : ℚ := Score_Experienced_Trauma r * 5.0

def Score_Drugs (r : StudentRecord) : ℚ := Score_Recreational_Drugs_Use r * 8.0

def Score_Alcohol (r : StudentRecord) : ℚ := clipU r.Alcohol_Drinks_Weekly 15 * 0.7

def Score_Anger (r : StudentRecord) : ℚ := r.Difficulty_Controlling_Anger * 1.5

def Score_Screen_Time (r : StudentRecord) : ℚ := clipL (r.Screen_Time_Hours - 7) 0 * 0.5

def Score_Exercise (r : StudentRecord) : ℚ := clipL (5 - r.Physical_Exercise_Frequency) 0 * 1.0

def Score_Diet (r : StudentRecord) : ℚ := Score_Skip_Meals_Irregularly r * 1.5

def Score_Social_Anxiety (r : StudentRecord) : ℚ := Score_Anxious_in_Social_Situations r * 1.5

def Score_Coping (r : StudentRecord) : ℚ := Score_Knows_Healthy_Coping r * 2.0

def Score_Lack_Support (r : StudentRecord) : ℚ := Score_Someone_to_Talk_To r * 1.5

def Score_Lack_Motivation (r : StudentRecord) : ℚ := Score_Motivated_about_Prospects r * 1.5

/-! Step 3 of the source (lines 98-99): score_cols is every column whose name
starts with Score_, in dataframe insertion order; Risk_Score is their sum.
With exactly the required input columns those are the 12 indicator columns
created in step 1 followed by the 23 weighted columns of step 2. -/

/-- Risk_Score of a record: the sum over all 35 Score_ columns the pipeline
created (source lines 98-99). -/
def riskScore (r : StudentRecord) : ℚ :=
  Score_Interested_in_Course r + Score_Family_Pressure r + Score_Career_Pressure r +
  Score_Experienced_Trauma r + Score_Overwhelmed_by_Studies r +
  Score_Anxious_in_Social_Situations r + Score_Motivated_about_Prospects r +
  Score_Knows_Healthy_Coping r + Score_Skip_Meals_Irregularly r +
  Score_Recreational_Drugs_Use r + Score_Sought_Professional_Help r +
  Score_Someone_to_Talk_To r +
  Score_Sleep_Hours r + Score_Sleep_Quality r + Score_Symptoms r +
  Score_Support_Score r + Score_Friends r + Score_Energy r +
  Score_Pressure_Academic_Scale r + Score_Pressure_Family_Binary r +
  Score_Pressure_Career_Binary r + Score_CGPA r + Score_Acad_Dissatisfaction r +
  Score_Overwhelmed r + Score_Trauma r + Score_Drugs r + Score_Alcohol r +
  Score_Anger r + Score_Screen_Time r + Score_Exercise r + Score_Diet r +
  Score_Social_Anxiety r + Score_Coping r + Score_Lack_Support r +
  Score_Lack_Motivation r

/-- Modelled from the words of section 4.3 of the spec: the total were it the
sum of exactly the weighted factor subscores of the factor table, with no
other terms. Used only to compare against riskScore. -/
def specTableRiskScore (r : StudentRecord) : ℚ :=
  Score_Sleep_Hours r + Score_Sleep_Quality r + Score_Symptoms r +
  Score_Support_Score r + Score_Friends r + Score_Energy r +
  Score_Pressure_Academic_Scale r + Score_Pressure_Family_Binary r +
  Score_Pressure_Career_Binary r + Score_CGPA r + Score_Acad_Dissatisfaction r +
  Score_Overwhelmed r + Score_Trauma r + Score_Drugs r + Score_Alcohol r +
  Score_Anger r + Score_Screen_Time r + Score_Exercise r + Score_Diet r +
  Score_Social_Anxiety r + Score_Coping r + Score_Lack_Support r +
  Score_Lack_Motivation r

/-- Sum of the 12 intermediate binary indicator columns of step 1. -/
def indicatorSum (r : StudentRecord) : ℚ :=
  Score_Interested_in_Course r + Score_Family_Pressure r + Score_Career_Pressure r +
  Score_Experienced_Trauma r + Score_Overwhelmed_by_Studies r +
  Score_Anxious_in_Social_Situations r + Score_Motivated_about_Prospects r +
  Score_Knows_Healthy_Coping r + Score_Skip_Meals_Irregularly r +
  Score_Recreational_Drugs_Use r + Score_Sought_Professional_Help r +
  Score_Someone_to_Talk_To r

/-- Source lines 102-110: classification of a score into a risk tier. -/
def get_risk_level (score : ℚ) : String :=
  if score ≥ 50 then "Critical Risk 🚨"
  else if score ≥ 30 then "High Risk 🔴"
  else if score ≥ 15 then "Moderate Risk 🟠"
  else "Low Risk 🟢"

/-! Part 2: row-level model. A dataframe row is an association list from
column name to cell value; column assignment overwrites an existing column in
place or appends a new column at the end, exactly as pandas does. -/

/-- A spreadsheet cell: numeric or textual. -/
inductive Value
  | num (q : ℚ)
  | str (s : String)
deriving DecidableEq

/-- Pandas astype(str) view of a cell; for numeric cells only the fact that
the rendered number is not a yes/no token matters to the pipeline. -/
def Value.asStr : Value → String
  | num q => toString q
  | str s => s

/-- Numeric view of a cell; arithmetic on a textual cell raises, modelled by
none. -/
def Value.asNum : Value → Option ℚ
  | num q => some q
  | str _ => none

/-- One dataframe row: column names paired with cell values, in column order. -/
abbrev Row := List (String × Value)

/-- Column names of a row, in order. -/
def rowCols (r : Row) : List String := r.map Prod.fst

/-- First cell stored under a column name. -/
def rowFind : Row → String → Option Value
  | [], _ => none
  | (c, v) :: rest, d => if c = d then some v else rowFind rest d

/-- Pandas column assignment: overwrite in place if the column exists,
otherwise append it at the end. -/
def rowSet : Row → String → Value → Row
  | [], c, v => [(c, v)]
  | (c', v') :: rest, c, v =>
      if c' = c then (c, v) :: rest else (c', v') :: rowSet rest c v

/-- Source lines 15-24: the 27 required column names.  Line 27 deduplicates
the list; it already has no duplicates. -/
def required_columns : List String :=
  ["Student number", "Hours_Sleep", "Social_Support_Score", "Academic_Pressure",
   "Symptoms_Frequency", "CGPA", "Year_of_Study", "Interested_in_Course",
   "Family_Pressure", "Career_Pressure", "Experienced_Trauma", "Someone_to_Talk_To",
   "Sleep_Quality_Rating", "Screen_Time_Hours", "Sought_Professional_Help",
   "Overwhelmed_by_Studies", "Anxious_in_Social_Situations", "Physical_Exercise_Frequency",
   "Close_Friends_Count", "Motivated_about_Prospects", "Daily_Energy_Levels",
   "Knows_Healthy_Coping", "Skip_Meals_Irregularly", "Alcohol_Drinks_Weekly",
   "Recreational_Drugs_Use", "Difficulty_Controlling_Anger", "Academic_Satisfaction"]

/-- Source lines 42-47: binary columns where yes maps to risk 1. -/
def binary_cols_risk : List String :=
  ["Interested_in_Course", "Family_Pressure", "Career_Pressure", "Experienced_Trauma",
   "Overwhelmed_by_Studies", "Anxious_in_Social_Situations", "Motivated_about_Prospects",
   "Knows_Healthy_Coping", "Skip_Meals_Irregularly", "Recreational_Drugs_Use",
   "Sought_Professional_Help"]

/-- Source line 50: binary columns where no maps to risk 1. -/
def binary_reverse_cols : List String :=
  ["Someone_to_Talk_To"]

/-- Clip shape of a numeric factor formula. -/
inductive ClipSpec
  | noClip
  | lower (lo : ℚ)
  | lowerUpper (lo hi : ℚ)
  | upper (hi : ℚ)
deriving DecidableEq

/-- Apply a clip shape, pandas style. -/
def applyClip : ClipSpec → ℚ → ℚ
  | .noClip, x => x
  | .lower lo, x => clipL x lo
  | .lowerUpper lo hi, x => clipLU x lo hi
  | .upper hi, x => clipU x hi

/-- One column-producing formula of the source: a risk-direction binary map,
a reverse binary map, or a clipped weighted affine transform of one numeric
column (the transformed value is coeff * x + offset). -/
inductive Formula
  | binRisk (src : String)
  | binRev (src : String)
  | numF (src : String) (coeff offset : ℚ) (clip : ClipSpec) (weight : ℚ)
deriving DecidableEq

/-- The single column a formula reads. -/
def Formula.src : Formula → String
  | .binRisk s => s
  | .binRev s => s
  | .numF s _ _ _ _ => s

/-- Evaluate a formula against the current row; none models a raised pandas
error (missing column, or arithmetic on a textual cell). -/
def evalFormula (f : Formula) (r : Row) : Option ℚ :=
  match f with
  | .binRisk src => (rowFind r src).map (fun v => scoreRisk v.asStr)
  | .binRev src => (rowFind r src).map (fun v => scoreReverseRisk v.asStr)
  | .numF src coeff offset clip weight =>
      ((rowFind r src).bind Value.asNum).map
        (fun x => applyClip clip (coeff * x + offset) * weight)

/-- The 35 column assignments of source lines 53-92, in source order: first
the binary indicator columns of step 1, then the weighted factor columns of
step 2 (several of which read indicator columns created in step 1). -/
def scoreSpecs : List (String × Formula) :=
  binary_cols_risk.map (fun c => ("Score_" ++ c, Formula.binRisk c)) ++
  binary_reverse_cols.map (fun c => ("Score_" ++ c, Formula.binRev c)) ++
  [("Score_Sleep_Hours", .numF "Hours_Sleep" (-1) 8 (.lowerUpper 0 4) 1.5),
   ("Score_Sleep_Quality", .numF "Sleep_Quality_Rating" (-1) 5 (.lowerUpper 0 4) 2.0),
   ("Score_Symptoms", .numF "Symptoms_Frequency" 1 0 .noClip 3.0),
   ("Score_Support_Score", .numF "Social_Support_Score" (-1) 5 (.lowerUpper 0 4) 1.5),
   ("Score_Friends", .numF "Close_Friends_Count" (-1) 5 (.lowerUpper 0 5) 1.0),
   ("Score_Energy", .numF "Daily_Energy_Levels" (-1) 5 (.lowerUpper 0 4) 1.5),
   ("Score_Pressure_Academic_Scale", .numF "Academic_Pressure" 1 0 .noClip 1.5),
   ("Score_Pressure_Family_Binary", .numF "Score_Family_Pressure" 1 0 .noClip 2.0),
   ("Score_Pressure_Career_Binary", .numF "Score_Career_Pressure" 1 0 .noClip 1.5),
   ("Score_CGPA", .numF "CGPA" (-1) 4.0 (.lowerUpper 0 4.0) 1.5),
   ("Score_Acad_Dissatisfaction", .numF "Academic_Satisfaction" (-1) 5 (.lower 0) 1.0),
   ("Score_Overwhelmed", .numF "Score_Overwhelmed_by_Studies" 1 0 .noClip 2.0),
   ("Score_Trauma", .numF "Score_Experienced_Trauma" 1 0 .noClip 5.0),
   ("Score_Drugs", .numF "Score_Recreational_Drugs_Use" 1 0 .noClip 8.0),
   ("Score_Alcohol", .numF "Alcohol_Drinks_Weekly" 1 0 (.upper 15) 0.7),
   ("Score_Anger", .numF "Difficulty_Controlling_Anger" 1 0 .noClip 1.5),
   ("Score_Screen_Time", .numF "Screen_Time_Hours" 1 (-7) (.lower 0) 0.5),
   ("Score_Exercise", .numF "Physical_Exercise_Frequency" (-1) 5 (.lower 0) 1.0),
   ("Score_Diet", .numF "Score_Skip_Meals_Irregularly" 1 0 .noClip 1.5),
   ("Score_Social_Anxiety", .numF "Score_Anxious_in_Social_Situations" 1 0 .noClip 1.5),
   ("Score_Coping", .numF "Score_Knows_Healthy_Coping" 1 0 .noClip 2.0),
   ("Score_Lack_Support", .numF "Score_Someone_to_Talk_To" 1 0 .noClip 1.5),
   ("Score_Lack_Motivation", .numF "Score_Motivated_about_Prospects" 1 0 .noClip 1.5)]

/-- Run a list of column assignments over a row, in order. -/
def applySpecs : List (String × Formula) → Row → Option Row
  | [], r => some r
  | (name, f) :: rest, r =>
      match evalFormula f r with
      | none => none
      | some q => applySpecs rest (rowSet r name (Value.num q))

/-- Source line 98: the columns whose name starts with Score_. -/
def scoreColsOf (r : Row) : Row :=
  r.filter (fun p => strStartsWith p.1 "Score_")

/-- Source line 99: sum those columns across the row; a textual cell in a
Score_ column makes the vectorised sum raise, modelled by none. -/
def sumScoreCols (r : Row) : Option ℚ :=
  ((scoreColsOf r).mapM (fun p : String × Value => p.2.asNum)).map (fun l => l.sum)

/-- Risk_Score of a row, when the pipeline does not raise. -/
def rowRiskScore (r : Row) : Option ℚ :=
  (applySpecs scoreSpecs r).bind sumScoreCols

/-- Risk_Level of a row, when the pipeline does not raise. -/
def rowRiskLevel (r : Row) : Option String :=
  (rowRiskScore r).map get_risk_level

/-- The full per-row pipeline to the report row: create the 35 Score_ columns
(lines 53-92), sum them into Risk_Score (line 99), classify into Risk_Level
(line 112), then drop every Score_ column (line 115). -/
def scoreRow (r : Row) : Option Row :=
  match applySpecs scoreSpecs r with
  | none => none
  | some r1 =>
    match sumScoreCols r1 with
    | none => none
    | some s =>
      let r2 := rowSet (rowSet r1 "Risk_Score" (Value.num s))
                  "Risk_Level" (Value.str (get_risk_level s))
      some (r2.filter (fun p => ! strStartsWith p.1 "Score_"))

/-- Source line 29: the schema check. -/
def checkSchema (cols : List String) : Bool :=
  required_columns.all (fun c => cols.contains c)

/-- Source line 30: the reported missing columns, the set difference of
required minus observed. -/
def missingCols (cols : List String) : List String :=
  required_columns.filter (fun c => ! cols.contains c)

/-- Outcome of one upload: schema failure with the missing list, a processing
error inside scoring, or a finished report row. -/
inductive UploadResult
  | schemaError (missing : List String)
  | procError
  | report (r : Row)
deriving DecidableEq

/-- Source lines 29-115 end to end for one row: validate the schema, and only
on success run the scoring pipeline. -/
def processUpload (r : Row) : UploadResult :=
  if checkSchema (rowCols r) then
    match scoreRow r with
    | some rep => .report rep
    | none => .procError
  else .schemaError (missingCols (rowCols r))

/-- View of a StudentRecord as a dataframe row with exactly the required
columns, in the order of the required column list. -/
def toRow (r : StudentRecord) : Row :=
  [("Student number", .str r.Student_number),
   ("Hours_Sleep", .num r.Hours_Sleep),
   ("Social_Support_Score", .num r.Social_Support_Score),
   ("Academic_Pressure", .num r.Academic_Pressure),
   ("Symptoms_Frequency", .num r.Symptoms_Frequency),
   ("CGPA", .num r.CGPA),
   ("Year_of_Study", .num r.Year_of_Study),
   ("Interested_in_Course", .str r.Interested_in_Course),
   ("Family_Pressure", .str r.Family_Pressure),
   ("Career_Pressure", .str r.Career_Pressure),
   ("Experienced_Trauma", .str r.Experienced_Trauma),
   ("Someone_to_Talk_To", .str r.Someone_to_Talk_To),
   ("Sleep_Quality_Rating", .num r.Sleep_Quality_Rating),
   ("Screen_Time_Hours", .num r.Screen_Time_Hours),
   ("Sought_Professional_Help", .str r.Sought_Professional_Help),
   ("Overwhelmed_by_Studies", .str r.Overwhelmed_by_Studies),
   ("Anxious_in_Social_Situations", .str r.Anxious_in_Social_Situations),
   ("Physical_Exercise_Frequency", .num r.Physical_Exercise_Frequency),
   ("Close_Friends_Count", .num r.Close_Friends_Count),
   ("Motivated_about_Prospects", .str r.Motivated_about_Prospects),
   ("Daily_Energy_Levels", .num r.Daily_Energy_Levels),
   ("Knows_Healthy_Coping", .str r.Knows_Healthy_Coping),
   ("Skip_Meals_Irregularly", .str r.Skip_Meals_Irregularly),
   ("Alcohol_Drinks_Weekly", .num r.Alcohol_Drinks_Weekly),
   ("Recreational_Drugs_Use", .str r.Recreational_Drugs_Use),
   ("Difficulty_Controlling_Anger", .num r.Difficulty_Controlling_Anger),
   ("Academic_Satisfaction", .num r.Academic_Satisfaction)]

/-! Concrete sample data used by counterexamples and witnesses. -/

/-- A quiet baseline record: every numeric field at its no-risk value, every
risk-direction binary field no, the reverse-direction field yes.  Its
Risk_Score is 0. -/
def baseRec : StudentRecord :=
  { Student_number := "s1", Hours_Sleep := 8, Social_Support_Score := 5,
    Academic_Pressure := 0, Symptoms_Frequency := 0, CGPA := 4, Year_of_Study := 1,
    Interested_in_Course := "no", Family_Pressure := "no", Career_Pressure := "no",
    Experienced_Trauma := "no", Someone_to_Talk_To := "yes",
    Sleep_Quality_Rating := 5, Screen_Time_Hours := 7,
    Sought_Professional_Help := "no", Overwhelmed_by_Studies := "no",
    Anxious_in_Social_Situations := "no", Physical_Exercise_Frequency := 5,
    Close_Friends_Count := 5, Motivated_about_Prospects := "no",
    Daily_Energy_Levels := 5, Knows_Healthy_Coping := "no",
    Skip_Meals_Irregularly := "no", Alcohol_Drinks_Weekly := 0,
    Recreational_Drugs_Use := "no", Difficulty_Controlling_Anger := 0,
    Academic_Satisfaction := 5 }

/-- The baseline row with the CGPA column removed: a table missing one
required column. -/
def rowMissingCGPA : Row :=
  (toRow baseRec).filter (fun p => ! (p.1 = "CGPA"))

/-- The baseline row with an extra uploaded column whose name carries the
Score_ prefix. -/
def rowWithScoreExtra : Row :=
  toRow baseRec ++ [("Score_Extra", Value.num 100)]

/-- Column names of the report row produced for a row, empty when the
pipeline raises. -/
def reportColsOf (r : Row) : List String :=
  rowCols ((scoreRow r).getD [])

/-- All 35 Score_ columns of a record are non-negative. -/
def allSubscoresNonneg (r : StudentRecord) : Prop :=
  0 ≤ Score_Interested_in_Course r ∧ 0 ≤ Score_Family_Pressure r ∧
  0 ≤ Score_Career_Pressure r ∧ 0 ≤ Score_Experienced_Trauma r ∧
  0 ≤ Score_Overwhelmed_by_Studies r ∧ 0 ≤ Score_Anxious_in_Social_Situations r ∧
  0 ≤ Score_Motivated_about_Prospects r ∧ 0 ≤ Score_Knows_Healthy_Coping r ∧
  0 ≤ Score_Skip_Meals_Irregularly r ∧ 0 ≤ Score_Recreational_Drugs_Use r ∧
  0 ≤ Score_Sought_Professional_Help r ∧ 0 ≤ Score_Someone_to_Talk_To r ∧
  0 ≤ Score_Sleep_Hours r ∧ 0 ≤ Score_Sleep_Quality r ∧ 0 ≤ Score_Symptoms r ∧
  0 ≤ Score_Support_Score r ∧ 0 ≤ Score_Friends r ∧ 0 ≤ Score_Energy r ∧
  0 ≤ Score_Pressure_Academic_Scale r ∧ 0 ≤ Score_Pressure_Family_Binary r ∧
  0 ≤ Score_Pressure_Career_Binary r ∧ 0 ≤ Score_CGPA r ∧
  0 ≤ Score_Acad_Dissatisfaction r ∧ 0 ≤ Score_Overwhelmed r ∧
  0 ≤ Score_Trauma r ∧ 0 ≤ Score_Drugs r ∧ 0 ≤ Score_Alcohol r ∧
  0 ≤ Score_Anger r ∧ 0 ≤ Score_Screen_Time r ∧ 0 ≤ Score_Exercise r ∧
  0 ≤ Score_Diet r ∧ 0 ≤ Score_Social_Anxiety r ∧ 0 ≤ Score_Coping r ∧
  0 ≤ Score_Lack_Support r ∧ 0 ≤ Score_Lack_Motivation r

/-- The baseline record with an arbitrary string in every binary field. -/
def garbageRec (s : String) : StudentRecord :=
  { baseRec with
    Interested_in_Course := s,
    Family_Pressure := s,
    Career_Pressure := s,
    Experienced_Trauma := s,
    Overwhelmed_by_Studies := s,
    Anxious_in_Social_Situations := s,
    Motivated_about_Prospects := s,
    Knows_Healthy_Coping := s,
    Skip_Meals_Irregularly := s,
    Recreational_Drugs_Use := s,
    Sought_Professional_Help := s,
    Someone_to_Talk_To := s }

/-- The baseline row with an extra uploaded Score_ column that the report
cleanup will strip. -/
def rowWithScoreHack : Row :=
  toRow baseRec ++ [("Score_Hack", Value.num 0)]

/-! Helper lemmas shared between claims. -/

theorem scoreRisk_yes : scoreRisk "yes" = 1 := by decide

theorem scoreRisk_no : scoreRisk "no" = 0 := by decide

theorem scoreReverseRisk_yes : scoreReverseRisk "yes" = 0 := by decide

theorem scoreReverseRisk_no : scoreReverseRisk "no" = 1 := by decide

/-- claim C1 counterexample: with Family_Pressure yes and everything else at
the no-risk baseline the code computes Risk_Score 3 (weighted factor 2 plus
the raw indicator column 1), not the factor-table total 2. -/
theorem c1_counterexample :
    riskScore { baseRec with Family_Pressure := "yes" } ≠
    specTableRiskScore { baseRec with Family_Pressure := "yes" } := by
  with_unfolding_all decide

/-- C1 amended: Risk_Score is the factor-table total plus the sum of the 12
intermediate binary indicator columns, because the final sum ranges over
every column whose name starts with Score_. -/
theorem c1_amended_split (r : StudentRecord) :
    riskScore r = specTableRiskScore r + indicatorSum r := by
  simp only [riskScore, specTableRiskScore, indicatorSum]
  ring

/-- claim C2 counterexample: two records identical in every field except
Sought_Professional_Help (yes versus no) receive different Risk_Score. -/
theorem c2_counterexample :
    riskScore { baseRec with Sought_Professional_Help := "yes" } ≠
    riskScore baseRec := by
  with_unfolding_all decide

/-- C2 amended: the normalized Sought_Professional_Help indicator contributes
exactly 1 times its value to Risk_Score (yes scores 1 higher than no), while
the factor-table part of the total is unchanged by it. -/
theorem c2_amended (r : StudentRecord) :
    riskScore { r with Sought_Professional_Help := "yes" } =
      riskScore { r with Sought_Professional_Help := "no" } + 1 ∧
    specTableRiskScore { r with Sought_Professional_Help := "yes" } =
      specTableRiskScore { r with Sought_Professional_Help := "no" } := by
  constructor
  · simp only [riskScore, Score_Interested_in_Course, Score_Family_Pressure,
      Score_Career_Pressure, Score_Experienced_Trauma, Score_Overwhelmed_by_Studies,
      Score_Anxious_in_Social_Situations, Score_Motivated_about_Prospects,
      Score_Knows_Healthy_Coping, Score_Skip_Meals_Irregularly,
      Score_Recreational_Drugs_Use, Score_Sought_Professional_Help,
      Score_Someone_to_Talk_To, Score_Sleep_Hours, Score_Sleep_Quality,
      Score_Symptoms, Score_Support_Score, Score_Friends, Score_Energy,
      Score_Pressure_Academic_Scale, Score_Pressure_Family_Binary,
      Score_Pressure_Career_Binary, Score_CGPA, Score_Acad_Dissatisfaction,
      Score_Overwhelmed, Score_Trauma, Score_Drugs, Score_Alcohol, Score_Anger,
      Score_Screen_Time, Score_Exercise, Score_Diet, Score_Social_Anxiety,
      Score_Coping, Score_Lack_Support, Score_Lack_Motivation,
      scoreRisk_yes, scoreRisk_no]
    ring
  · simp only [specTableRiskScore, Score_Sleep_Hours, Score_Sleep_Quality,
      Score_Symptoms, Score_Support_Score, Score_Friends, Score_Energy,
      Score_Pressure_Academic_Scale, Score_Pressure_Family_Binary,
      Score_Pressure_Career_Binary, Score_CGPA, Score_Acad_Dissatisfaction,
      Score_Overwhelmed, Score_Trauma, Score_Drugs, Score_Alcohol, Score_Anger,
      Score_Screen_Time, Score_Exercise, Score_Diet, Score_Social_Anxiety,
      Score_Coping, Score_Lack_Support, Score_Lack_Motivation,
      Score_Family_Pressure, Score_Career_Pressure, Score_Experienced_Trauma,
      Score_Overwhelmed_by_Studies, Score_Anxious_in_Social_Situations,
      Score_Motivated_about_Prospects, Score_Knows_Healthy_Coping,
      Score_Skip_Meals_Irregularly, Score_Recreational_Drugs_Use,
      Score_Someone_to_Talk_To]

/-- claim C3 counterexample: a trailing space defeats the yes/no mapping, so
"YES " normalises to the 0 default instead of the claimed 1: the value is
case-folded but never trimmed. -/
theorem c3_counterexample : scoreRisk "YES " ≠ 1 := by decide

/-- C3 amended: binary normalisation case-folds but does not trim: exact
case-insensitive yes/no map to their direction value, any padded variant
falls to the default. -/
theorem c3_amended :
    scoreRisk "Yes" = 1 ∧ scoreRisk "yes" = 1 ∧ scoreRisk "YES" = 1 ∧
    scoreRisk "No" = 0 ∧ scoreRisk "no" = 0 ∧ scoreRisk "YES " = 0 ∧
    scoreReverseRisk "Yes" = 0 ∧ scoreReverseRisk "No" = 1 := by decide

/-- claim C5: thresholds are evaluated highest first with closed-above,
open-below boundaries, and every score gets one of the four labels. -/
theorem c5_thresholds :
    get_risk_level 50 = "Critical Risk 🚨" ∧
    get_risk_level (49999/1000) = "High Risk 🔴" ∧
    get_risk_level 30 = "High Risk 🔴" ∧
    get_risk_level 15 = "Moderate Risk 🟠" ∧
    get_risk_level (14999/1000) = "Low Risk 🟢" ∧
    (∀ s : ℚ, s < 15 → get_risk_level s = "Low Risk 🟢") ∧
    (∀ s : ℚ, get_risk_level s = "Low Risk 🟢" ∨ get_risk_level s = "Moderate Risk 🟠" ∨
      get_risk_level s = "High Risk 🔴" ∨ get_risk_level s = "Critical Risk 🚨") := by
  refine ⟨by with_unfolding_all decide, by with_unfolding_all decide,
    by with_unfolding_all decide, by with_unfolding_all decide,
    by with_unfolding_all decide, ?_, ?_⟩
  · intro s hs
    simp only [get_risk_level]
    rw [if_neg (by linarith), if_neg (by linarith), if_neg (by linarith)]
  · intro s
    simp only [get_risk_level]
    split_ifs <;> simp

theorem c5_witness : get_risk_level 14 = "Low Risk 🟢" :=
  c5_thresholds.2.2.2.2.2.1 14 (by norm_num)

/-- claim C10: the Interested_in_Course indicator adds exactly 1 to
Risk_Score for yes versus an otherwise identical record answering no, while
the factor-table part assigns the field nothing. -/
theorem c10_interested (r : StudentRecord) :
    riskScore { r with Interested_in_Course := "yes" } =
      riskScore { r with Interested_in_Course := "no" } + 1 ∧
    specTableRiskScore { r with Interested_in_Course := "yes" } =
      specTableRiskScore { r with Interested_in_Course := "no" } := by
  constructor
  · simp only [riskScore, Score_Interested_in_Course, Score_Family_Pressure,
      Score_Career_Pressure, Score_Experienced_Trauma, Score_Overwhelmed_by_Studies,
      Score_Anxious_in_Social_Situations, Score_Motivated_about_Prospects,
      Score_Knows_Healthy_Coping, Score_Skip_Meals_Irregularly,
      Score_Recreational_Drugs_Use, Score_Sought_Professional_Help,
      Score_Someone_to_Talk_To, Score_Sleep_Hours, Score_Sleep_Quality,
      Score_Symptoms, Score_Support_Score, Score_Friends, Score_Energy,
      Score_Pressure_Academic_Scale, Score_Pressure_Family_Binary,
      Score_Pressure_Career_Binary, Score_CGPA, Score_Acad_Dissatisfaction,
      Score_Overwhelmed, Score_Trauma, Score_Drugs, Score_Alcohol, Score_Anger,
      Score_Screen_Time, Score_Exercise, Score_Diet, Score_Social_Anxiety,
      Score_Coping, Score_Lack_Support, Score_Lack_Motivation,
      scoreRisk_yes, scoreRisk_no]
    ring
  · simp only [specTableRiskScore, Score_Sleep_Hours, Score_Sleep_Quality,
      Score_Symptoms, Score_Support_Score, Score_Friends, Score_Energy,
      Score_Pressure_Academic_Scale, Score_Pressure_Family_Binary,
      Score_Pressure_Career_Binary, Score_CGPA, Score_Acad_Dissatisfaction,
      Score_Overwhelmed, Score_Trauma, Score_Drugs, Score_Alcohol, Score_Anger,
      Score_Screen_Time, Score_Exercise, Score_Diet, Score_Social_Anxiety,
      Score_Coping, Score_Lack_Support, Score_Lack_Motivation,
      Score_Family_Pressure, Score_Career_Pressure, Score_Experienced_Trauma,
      Score_Overwhelmed_by_Studies, Score_Anxious_in_Social_Situations,
      Score_Motivated_about_Prospects, Score_Knows_Healthy_Coping,
      Score_Skip_Meals_Irregularly, Score_Recreational_Drugs_Use,
      Score_Someone_to_Talk_To]

/-! Non-negativity helpers for claim C4. -/

theorem scoreRisk_nonneg (s : String) : 0 ≤ scoreRisk s := by
  unfold scoreRisk mapping_risk
  split_ifs <;> norm_num

theorem scoreReverseRisk_nonneg (s : String) : 0 ≤ scoreReverseRisk s := by
  unfold scoreReverseRisk mapping_reverse_risk
  split_ifs <;> norm_num

theorem clipLU_nonneg (x hi : ℚ) (h : 0 ≤ hi) : 0 ≤ clipLU x 0 hi := by
  unfold clipLU
  exact le_min (le_max_right x 0) h

theorem clipL_nonneg (x : ℚ) : 0 ≤ clipL x 0 :=
  le_max_right x 0

theorem clipU_nonneg (x hi : ℚ) (hx : 0 ≤ x) (h : 0 ≤ hi) : 0 ≤ clipU x hi :=
  le_min hx h

/-- claim C4 counterexample: with Symptoms_Frequency set to -1 the Symptoms
subscore is -3 and the whole Risk_Score is -3, both negative. -/
theorem c4_counterexample :
    Score_Symptoms { baseRec with Symptoms_Frequency := -1 } < 0 ∧
    riskScore { baseRec with Symptoms_Frequency := -1 } < 0 := by
  with_unfolding_all decide

set_option maxHeartbeats 2000000 in
/-- C4 amended: the guarantee holds once the four numeric fields the code
scales without a lower clip (Symptoms_Frequency, Academic_Pressure,
Difficulty_Controlling_Anger, Alcohol_Drinks_Weekly) are non-negative: then
every subscore is non-negative and so is Risk_Score. -/
theorem c4_amended (r : StudentRecord)
    (h1 : 0 ≤ r.Symptoms_Frequency) (h2 : 0 ≤ r.Academic_Pressure)
    (h3 : 0 ≤ r.Difficulty_Controlling_Anger) (h4 : 0 ≤ r.Alcohol_Drinks_Weekly) :
    allSubscoresNonneg r ∧ 0 ≤ riskScore r := by
  have hall : allSubscoresNonneg r := by
    unfold allSubscoresNonneg Score_Interested_in_Course Score_Family_Pressure
      Score_Career_Pressure Score_Experienced_Trauma Score_Overwhelmed_by_Studies
      Score_Anxious_in_Social_Situations Score_Motivated_about_Prospects
      Score_Knows_Healthy_Coping Score_Skip_Meals_Irregularly
      Score_Recreational_Drugs_Use Score_Sought_Professional_Help
      Score_Someone_to_Talk_To Score_Sleep_Hours Score_Sleep_Quality
      Score_Symptoms Score_Support_Score Score_Friends Score_Energy
      Score_Pressure_Academic_Scale Score_Pressure_Family_Binary
      Score_Pressure_Career_Binary Score_CGPA Score_Acad_Dissatisfaction
      Score_Overwhelmed Score_Trauma Score_Drugs Score_Alcohol Score_Anger
      Score_Screen_Time Score_Exercise Score_Diet Score_Social_Anxiety
      Score_Coping Score_Lack_Support Score_Lack_Motivation
    refine ⟨scoreRisk_nonneg _, scoreRisk_nonneg _, scoreRisk_nonneg _,
      scoreRisk_nonneg _, scoreRisk_nonneg _, scoreRisk_nonneg _,
      scoreRisk_nonneg _, scoreRisk_nonneg _, scoreRisk_nonneg _,
      scoreRisk_nonneg _, scoreRisk_nonneg _, scoreReverseRisk_nonneg _,
      ?_, ?_, ?_, ?_, ?_, ?_, ?_, ?_, ?_, ?_, ?_, ?_, ?_, ?_, ?_, ?_, ?_, ?_,
      ?_, ?_, ?_, ?_, ?_⟩
    · exact mul_nonneg (clipLU_nonneg _ 4 (by norm_num)) (by norm_num)
    · exact mul_nonneg (clipLU_nonneg _ 4 (by norm_num)) (by norm_num)
    · exact mul_nonneg h1 (by norm_num)
    · exact mul_nonneg (clipLU_nonneg _ 4 (by norm_num)) (by norm_num)
    · exact mul_nonneg (clipLU_nonneg _ 5 (by norm_num)) (by norm_num)
    · exact mul_nonneg (clipLU_nonneg _ 4 (by norm_num)) (by norm_num)
    · exact mul_nonneg h2 (by norm_num)
    · exact mul_nonneg (scoreRisk_nonneg _) (by norm_num)
    · exact mul_nonneg (scoreRisk_nonneg _) (by norm_num)
    · exact mul_nonneg (clipLU_nonneg _ 4.0 (by norm_num)) (by norm_num)
    · exact mul_nonneg (clipL_nonneg _) (by norm_num)
    · exact mul_nonneg (scoreRisk_nonneg _) (by norm_num)
    · exact mul_nonneg (scoreRisk_nonneg _) (by norm_num)
    · exact mul_nonneg (scoreRisk_nonneg _) (by norm_num)
    · exact mul_nonneg (clipU_nonneg _ 15 h4 (by norm_num)) (by norm_num)
    · exact mul_nonneg h3 (by norm_num)
    · exact mul_nonneg (clipL_nonneg _) (by norm_num)
    · exact mul_nonneg (clipL_nonneg _) (by norm_num)
    · exact mul_nonneg (scoreRisk_nonneg _) (by norm_num)
    · exact mul_nonneg (scoreRisk_nonneg _) (by norm_num)
    · exact mul_nonneg (scoreRisk_nonneg _) (by norm_num)
    · exact mul_nonneg (scoreReverseRisk_nonneg _) (by norm_num)
    · exact mul_nonneg (scoreRisk_nonneg _) (by norm_num)
  refine ⟨hall, ?_⟩
  obtain ⟨a1, a2, a3, a4, a5, a6, a7, a8, a9, a10, a11, a12, a13, a14, a15,
    a16, a17, a18, a19, a20, a21, a22, a23, a24, a25, a26, a27, a28, a29,
    a30, a31, a32, a33, a34, a35⟩ := hall
  unfold riskScore
  repeat apply add_nonneg
  all_goals assumption

theorem c4_witness : allSubscoresNonneg baseRec ∧ 0 ≤ riskScore baseRec :=
  c4_amended baseRec (by norm_num [baseRec]) (by norm_num [baseRec])
    (by norm_num [baseRec]) (by norm_num [baseRec])

/-- claim C6: schema validation passes exactly when every required column is
present; the reported missing list is exactly the set difference required
minus observed; on failure the upload stops at the schema error, on success
(extra columns included, since only presence of required names is tested)
the row is scored. -/
theorem c6_schema (r : Row) :
    (checkSchema (rowCols r) = true ↔ ∀ c ∈ required_columns, c ∈ rowCols r) ∧
    (∀ c, c ∈ missingCols (rowCols r) ↔ c ∈ required_columns ∧ c ∉ rowCols r) ∧
    (checkSchema (rowCols r) = false →
      processUpload r = UploadResult.schemaError (missingCols (rowCols r))) ∧
    (checkSchema (rowCols r) = true →
      processUpload r = (match scoreRow r with
        | some rep => UploadResult.report rep
        | none => UploadResult.procError)) := by
  refine ⟨?_, ?_, ?_, ?_⟩
  · simp [checkSchema, List.all_eq_true, List.elem_eq_mem]
  · intro c
    simp [missingCols, List.mem_filter, List.elem_eq_mem]
  · intro h
    simp [processUpload, h]
  · intro h
    simp [processUpload, h]

theorem c6_witness :
    processUpload rowMissingCGPA =
      UploadResult.schemaError (missingCols (rowCols rowMissingCGPA)) ∧
    processUpload (toRow baseRec) =
      (match scoreRow (toRow baseRec) with
        | some rep => UploadResult.report rep
        | none => UploadResult.procError) :=
  ⟨(c6_schema rowMissingCGPA).2.2.1 (by with_unfolding_all decide),
   (c6_schema (toRow baseRec)).2.2.2 (by with_unfolding_all decide)⟩

/-- claim C7: an unparseable binary value (anything whose lower-cased form is
neither yes nor no, including the empty string and the nan rendering of a
missing cell) maps to 0 on risk-direction fields and 1 on the reverse field;
a binary formula never fails when its column is present, whatever the cell
holds; and records full of such garbage are still scored to a report. -/
theorem c7_lenient_defaults (s : String)
    (h1 : strLower s ≠ "yes") (h2 : strLower s ≠ "no") :
    scoreRisk s = 0 ∧ scoreReverseRisk s = 1 ∧
    (∀ (r : Row) (c : String), (rowFind r c).isSome →
      (evalFormula (Formula.binRisk c) r).isSome ∧
      (evalFormula (Formula.binRev c) r).isSome) ∧
    (scoreRow (toRow (garbageRec ""))).isSome = true ∧
    (scoreRow (toRow (garbageRec "nan"))).isSome = true := by
  refine ⟨?_, ?_, ?_, ?_, ?_⟩
  · unfold scoreRisk mapping_risk
    rw [if_neg h1, if_neg h2]
    rfl
  · unfold scoreReverseRisk mapping_reverse_risk
    rw [if_neg h1, if_neg h2]
    rfl
  · intro r c h
    obtain ⟨v, hv⟩ := Option.isSome_iff_exists.mp h
    simp [evalFormula, hv]
  · with_unfolding_all decide
  · with_unfolding_all decide

theorem c7_witness : scoreRisk "nan" = 0 ∧ scoreReverseRisk "nan" = 1 :=
  ⟨(c7_lenient_defaults "nan" (by decide) (by decide)).1,
   (c7_lenient_defaults "nan" (by decide) (by decide)).2.1⟩

/-! Machinery for claims C8 and C9: tracking one inserted column through the
pipeline, and the effect of column assignment on names and lookups. -/

/-- r2 is r with the single extra column (n, v) inserted at some position. -/
def InsCol (n : String) (v : Value) (r2 r : Row) : Prop :=
  ∃ a b, r2 = a ++ (n, v) :: b ∧ r = a ++ b

theorem rowFind_insCol {n : String} {v : Value} {r2 r : Row}
    (h : InsCol n v r2 r) {c : String} (hc : c ≠ n) :
    rowFind r2 c = rowFind r c := by
  obtain ⟨a, b, e2, e1⟩ := h
  subst e2
  subst e1
  induction a with
  | nil =>
    simp only [List.nil_append, rowFind]
    rw [if_neg (fun e => hc e.symm)]
  | cons p a ih =>
    cases p with
    | mk c' v' =>
      simp only [List.cons_append, rowFind]
      split
      · rfl
      · exact ih

theorem rowSet_insCol {n : String} {v : Value} {r2 r : Row}
    (h : InsCol n v r2 r) {c : String} (w : Value) (hc : c ≠ n) :
    InsCol n v (rowSet r2 c w) (rowSet r c w) := by
  obtain ⟨a, b, e2, e1⟩ := h
  subst e2
  subst e1
  induction a with
  | nil =>
    refine ⟨[], rowSet b c w, ?_, rfl⟩
    simp only [List.nil_append, rowSet]
    rw [if_neg (fun e => hc e.symm)]
  | cons p a ih =>
    cases p with
    | mk c' v' =>
      by_cases hcc : c' = c
      · subst hcc
        refine ⟨(c', w) :: a, b, ?_, ?_⟩ <;>
          simp [rowSet]
      · obtain ⟨a', b', f2, f1⟩ := ih
        refine ⟨(c', v') :: a', b', ?_, ?_⟩ <;>
          simp [rowSet, hcc, f2, f1]

theorem evalFormula_insCol {n : String} {v : Value} {r2 r : Row}
    (h : InsCol n v r2 r) {f : Formula} (hf : Formula.src f ≠ n) :
    evalFormula f r2 = evalFormula f r := by
  cases f with
  | binRisk s => simp only [evalFormula]; rw [rowFind_insCol h (by exact hf)]
  | binRev s => simp only [evalFormula]; rw [rowFind_insCol h (by exact hf)]
  | numF s coeff offset clip weight =>
      simp only [evalFormula]
      rw [rowFind_insCol h (by exact hf)]

theorem applySpecs_insCol {n : String} {v : Value} (specs : List (String × Formula))
    (hn : ∀ p ∈ specs, p.1 ≠ n ∧ Formula.src p.2 ≠ n) :
    ∀ {r2 r : Row}, InsCol n v r2 r →
      (applySpecs specs r2 = none ∧ applySpecs specs r = none) ∨
      (∃ r2' r', applySpecs specs r2 = some r2' ∧ applySpecs specs r = some r' ∧
        InsCol n v r2' r') := by
  induction specs with
  | nil =>
    intro r2 r h
    exact Or.inr ⟨r2, r, rfl, rfl, h⟩
  | cons p rest ih =>
    intro r2 r h
    obtain ⟨hp1, hp2⟩ := hn p (List.mem_cons_self p rest)
    cases p with
    | mk name f =>
      have he : evalFormula f r2 = evalFormula f r := evalFormula_insCol h hp2
      cases hev : evalFormula f r with
      | none =>
        left
        constructor <;> simp [applySpecs, he, hev]
      | some q =>
        have hrest : ∀ p ∈ rest, p.1 ≠ n ∧ Formula.src p.2 ≠ n :=
          fun p hp => hn p (List.mem_cons_of_mem _ hp)
        have hstep := rowSet_insCol h (Value.num q) hp1
        rcases ih hrest hstep with ⟨f2, f1⟩ | ⟨r2', r', f2, f1, hins⟩
        · left
          constructor <;> simp [applySpecs, he, hev, f2, f1]
        · right
          exact ⟨r2', r', by simp [applySpecs, he, hev, f2], by simp [applySpecs, hev, f1], hins⟩

theorem sumScoreCols_insCol {n : String} {v : Value} {r2 r : Row}
    (h : InsCol n v r2 r) (hn : strStartsWith n "Score_" = false) :
    sumScoreCols r2 = sumScoreCols r := by
  obtain ⟨a, b, e2, e1⟩ := h
  subst e2
  subst e1
  unfold sumScoreCols scoreColsOf
  rw [List.filter_append, List.filter_append, List.filter_cons]
  simp [hn]

/-- Every assignment of the pipeline targets a Score_ name, and reads either
a required column or a Score_ column. -/
theorem scoreSpecs_names :
    ∀ p ∈ scoreSpecs, strStartsWith p.1 "Score_" = true ∧
      (Formula.src p.2 ∈ required_columns ∨
        strStartsWith (Formula.src p.2) "Score_" = true) := by decide

/-- claim C8 counterexample: adding the extra column Score_Extra with value
100 changes the Risk_Score of the baseline row from 0 to 100, because the
final sum picks up every column whose name starts with Score_. -/
theorem c8_counterexample :
    rowRiskScore rowWithScoreExtra ≠ rowRiskScore (toRow baseRec) := by
  with_unfolding_all decide

/-- C8 amended: an extra column whose name does not carry the Score_ prefix
and is not a required column name leaves Risk_Score and Risk_Level of every
row unchanged. -/
theorem c8_amended (r : Row) (n : String) (v : Value)
    (h1 : strStartsWith n "Score_" = false) (h2 : n ∉ required_columns) :
    rowRiskScore (r ++ [(n, v)]) = rowRiskScore r ∧
    rowRiskLevel (r ++ [(n, v)]) = rowRiskLevel r := by
  have hIns : InsCol n v (r ++ [(n, v)]) r := ⟨r, [], rfl, by simp⟩
  have hn : ∀ p ∈ scoreSpecs, p.1 ≠ n ∧ Formula.src p.2 ≠ n := by
    intro p hp
    obtain ⟨hp1, hp2⟩ := scoreSpecs_names p hp
    constructor
    · intro e
      rw [e] at hp1
      rw [hp1] at h1
      cases h1
    · rcases hp2 with hreq | hsw
      · intro e
        rw [e] at hreq
        exact h2 hreq
      · intro e
        rw [e] at hsw
        rw [hsw] at h1
        cases h1
  have hs : rowRiskScore (r ++ [(n, v)]) = rowRiskScore r := by
    rcases applySpecs_insCol scoreSpecs hn hIns with ⟨e2, e1⟩ | ⟨r2', r', e2, e1, hins⟩
    · unfold rowRiskScore
      rw [e1, e2]
    · unfold rowRiskScore
      rw [e1, e2]
      show sumScoreCols r2' = sumScoreCols r'
      exact sumScoreCols_insCol hins h1
  refine ⟨hs, ?_⟩
  unfold rowRiskLevel
  rw [hs]

theorem c8_witness :
    rowRiskScore (toRow baseRec ++ [("Notes", Value.str "x")]) =
      rowRiskScore (toRow baseRec) ∧
    rowRiskLevel (toRow baseRec ++ [("Notes", Value.str "x")]) =
      rowRiskLevel (toRow baseRec) :=
  c8_amended (toRow baseRec) "Notes" (Value.str "x") (by decide) (by decide)

/-! Column bookkeeping lemmas for claim C9. -/

theorem mem_rowCols_set (r : Row) (nm : String) (w : Value) (c : String) :
    c ∈ rowCols (rowSet r nm w) ↔ c ∈ rowCols r ∨ c = nm := by
  induction r with
  | nil => simp [rowSet, rowCols]
  | cons p rest ih =>
    cases p with
    | mk c' v' =>
      by_cases h : c' = nm
      · subst h
        simp [rowSet, rowCols]
        tauto
      · simp only [rowSet, if_neg h, rowCols, List.map_cons, List.mem_cons]
        rw [rowCols] at ih
        tauto

theorem rowFind_set_ne (r : Row) (nm : String) (w : Value) (c : String) (h : c ≠ nm) :
    rowFind (rowSet r nm w) c = rowFind r c := by
  induction r with
  | nil =>
    simp only [rowSet, rowFind]
    rw [if_neg (fun e => h e.symm)]
  | cons p rest ih =>
    cases p with
    | mk c' v' =>
      by_cases hc : c' = nm
      · subst hc
        simp only [rowSet, if_pos rfl, rowFind]
        rw [if_neg (fun e => h e.symm), if_neg (fun e => h e.symm)]
      · simp only [rowSet, if_neg hc, rowFind]
        split
        · rfl
        · exact ih

theorem applySpecs_cols_mono (specs : List (String × Formula)) :
    ∀ {r r1 : Row}, applySpecs specs r = some r1 → ∀ c ∈ rowCols r, c ∈ rowCols r1 := by
  induction specs with
  | nil =>
    intro r r1 h c hc
    cases h
    exact hc
  | cons p rest ih =>
    intro r r1 h c hc
    cases p with
    | mk name f =>
      cases hev : evalFormula f r with
      | none => simp [applySpecs, hev] at h
      | some q =>
        simp only [applySpecs, hev] at h
        exact ih h c ((mem_rowCols_set r name (Value.num q) c).mpr (Or.inl hc))

theorem applySpecs_find_ne (specs : List (String × Formula)) (c : String)
    (hc : ∀ p ∈ specs, p.1 ≠ c) :
    ∀ {r r1 : Row}, applySpecs specs r = some r1 → rowFind r1 c = rowFind r c := by
  induction specs with
  | nil =>
    intro r r1 h
    cases h
    rfl
  | cons p rest ih =>
    intro r r1 h
    cases p with
    | mk name f =>
      cases hev : evalFormula f r with
      | none => simp [applySpecs, hev] at h
      | some q =>
        simp only [applySpecs, hev] at h
        rw [ih (fun p hp => hc p (List.mem_cons_of_mem _ hp)) h]
        exact rowFind_set_ne r name (Value.num q) c
          (fun e => hc (name, f) (List.mem_cons_self _ _) e.symm)

theorem rowCols_filter_not_score (r : Row) (c : String) :
    c ∈ rowCols (r.filter (fun p => ! strStartsWith p.1 "Score_")) ↔
      c ∈ rowCols r ∧ strStartsWith c "Score_" = false := by
  induction r with
  | nil => simp [rowCols]
  | cons p rest ih =>
    cases p with
    | mk c' v' =>
      rw [List.filter_cons]
      cases hsw : strStartsWith c' "Score_" with
      | false =>
        simp only [hsw, Bool.not_false, if_true, rowCols, List.map_cons, List.mem_cons]
        rw [rowCols] at ih
        constructor
        · rintro (he | hmem)
          · exact ⟨Or.inl he, he ▸ hsw⟩
          · obtain ⟨h1, h2⟩ := ih.mp hmem
            exact ⟨Or.inr h1, h2⟩
        · rintro ⟨he | hmem, h2⟩
          · exact Or.inl he
          · exact Or.inr (ih.mpr ⟨hmem, h2⟩)
      | true =>
        simp only [hsw, Bool.not_true, if_false, rowCols, List.map_cons, List.mem_cons]
        rw [rowCols] at ih
        constructor
        · intro hmem
          obtain ⟨h1, h2⟩ := ih.mp hmem
          exact ⟨Or.inr h1, h2⟩
        · rintro ⟨he | hmem, h2⟩
          · rw [he] at h2
            rw [h2] at hsw
            cases hsw
          · exact ih.mpr ⟨hmem, h2⟩

theorem rowFind_filter_not_score (r : Row) (c : String)
    (hc : strStartsWith c "Score_" = false) :
    rowFind (r.filter (fun p => ! strStartsWith p.1 "Score_")) c = rowFind r c := by
  induction r with
  | nil => rfl
  | cons p rest ih =>
    cases p with
    | mk c' v' =>
      rw [List.filter_cons]
      by_cases he : c' = c
      · subst he
        simp only [hc, Bool.not_false, if_true, rowFind, if_pos rfl]
      · cases hsw : strStartsWith c' "Score_" with
        | false =>
          simp only [hsw, Bool.not_false, if_true, rowFind, if_neg he]
          exact ih
        | true =>
          simp only [hsw, Bool.not_true, if_false, rowFind, if_neg he]
          exact ih

theorem ne_of_score_prefix {a b : String} (ha : strStartsWith a "Score_" = true)
    (hb : strStartsWith b "Score_" = false) : a ≠ b := by
  intro e
  rw [e] at ha
  rw [ha] at hb
  cases hb

/-- claim C9 counterexample: an uploaded extra column named Score_Hack is an
original input column, yet the report cleanup strips it, so the report does
not contain every original input column. -/
theorem c9_counterexample :
    "Score_Hack" ∈ rowCols rowWithScoreHack ∧
    (scoreRow rowWithScoreHack).isSome = true ∧
    "Score_Hack" ∉ reportColsOf rowWithScoreHack := by
  with_unfolding_all decide

/-- C9 amended: the report row keeps every original column whose name does
not carry the Score_ prefix (the Student number cell verbatim), adds
Risk_Score and Risk_Level, and contains no Score_ column. -/
theorem c9_amended (r : Row) (rep : Row) (h : scoreRow r = some rep) :
    (∀ c ∈ rowCols r, strStartsWith c "Score_" = false → c ∈ rowCols rep) ∧
    "Risk_Score" ∈ rowCols rep ∧ "Risk_Level" ∈ rowCols rep ∧
    (∀ c ∈ rowCols rep, strStartsWith c "Score_" = false) ∧
    rowFind rep "Student number" = rowFind r "Student number" := by
  cases e1 : applySpecs scoreSpecs r with
  | none => simp [scoreRow, e1] at h
  | some r1 =>
    cases e2 : sumScoreCols r1 with
    | none => simp [scoreRow, e1, e2] at h
    | some sc =>
      simp only [scoreRow, e1, e2, Option.some.injEq] at h
      have hrs : strStartsWith "Risk_Score" "Score_" = false := by decide
      have hrl : strStartsWith "Risk_Level" "Score_" = false := by decide
      have hsn : strStartsWith "Student number" "Score_" = false := by decide
      refine ⟨?_, ?_, ?_, ?_, ?_⟩
      · intro c hc hcs
        have hc1 : c ∈ rowCols r1 := applySpecs_cols_mono scoreSpecs e1 c hc
        have hc2 : c ∈ rowCols (rowSet r1 "Risk_Score" (Value.num sc)) :=
          (mem_rowCols_set r1 "Risk_Score" (Value.num sc) c).mpr (Or.inl hc1)
        have hc3 : c ∈ rowCols (rowSet (rowSet r1 "Risk_Score" (Value.num sc))
            "Risk_Level" (Value.str (get_risk_level sc))) :=
          (mem_rowCols_set _ "Risk_Level" _ c).mpr (Or.inl hc2)
        rw [← h]
        exact (rowCols_filter_not_score _ c).mpr ⟨hc3, hcs⟩
      · have hc2 : "Risk_Score" ∈ rowCols (rowSet r1 "Risk_Score" (Value.num sc)) :=
          (mem_rowCols_set r1 "Risk_Score" (Value.num sc) _).mpr (Or.inr rfl)
        have hc3 : "Risk_Score" ∈ rowCols (rowSet (rowSet r1 "Risk_Score" (Value.num sc))
            "Risk_Level" (Value.str (get_risk_level sc))) :=
          (mem_rowCols_set _ "Risk_Level" _ _).mpr (Or.inl hc2)
        rw [← h]
        exact (rowCols_filter_not_score _ _).mpr ⟨hc3, hrs⟩
      · have hc3 : "Risk_Level" ∈ rowCols (rowSet (rowSet r1 "Risk_Score" (Value.num sc))
            "Risk_Level" (Value.str (get_risk_level sc))) :=
          (mem_rowCols_set _ "Risk_Level" _ _).mpr (Or.inr rfl)
        rw [← h]
        exact (rowCols_filter_not_score _ _).mpr ⟨hc3, hrl⟩
      · intro c hc
        rw [← h] at hc
        exact ((rowCols_filter_not_score _ c).mp hc).2
      · have hfind : ∀ p ∈ scoreSpecs, p.1 ≠ "Student number" := by
          intro p hp
          exact ne_of_score_prefix (scoreSpecs_names p hp).1 hsn
        rw [← h]
        rw [rowFind_filter_not_score _ _ hsn]
        rw [rowFind_set_ne _ "Risk_Level" _ _ (by decide)]
        rw [rowFind_set_ne _ "Risk_Score" _ _ (by decide)]
        exact applySpecs_find_ne scoreSpecs "Student number" hfind e1

theorem c9_witness :
    "Risk_Score" ∈ rowCols ((scoreRow (toRow baseRec)).getD []) := by
  have h : scoreRow (toRow baseRec) = some ((scoreRow (toRow baseRec)).getD []) := by
    with_unfolding_all rfl
  exact (c9_amended (toRow baseRec) _ h).2.1
